import Mathlib

/-!
Verification of the qwen-code-proxy credential-lifecycle client and
request dispatcher against its design specification.

The Python sources (`qwen_client.py`, `openai_adapter.py`, `server.py`,
`config.py`) are shallowly embedded below: network calls are modelled by
the responses they return, `time.time()` by an explicit epoch-seconds
parameter (whole seconds, as `Int`), the fractional poll intervals by
exact rationals, and exception control flow by explicit result types.
-/

namespace QwenProxy

/-- Embedding of the `OAuthCreds` dataclass of `qwen_client.py`.
`expiry_date` is absolute epoch seconds. -/
structure OAuthCreds where
  access_token : String
  refresh_token : String
  token_type : String
  resource_url : String
  expiry_date : Int
  deriving DecidableEq, Repr

/-- Embedding of `CLIENT_ID` from `qwen_client.py`. -/
def CLIENT_ID : String := "f0304373b74a44d2b584a3fb70ca9e56"

/-- Embedding of `API_BASE_URL` from `qwen_client.py`. -/
def API_BASE_URL : String := "https://dashscope.aliyuncs.com/compatible-mode/v1"

/-- Replacement of every non-overlapping occurrence of `pat` (left to
right) in a character list, as Python `str.replace` computes it for a
non-empty pattern.  `fuel` bounds the recursion; it is instantiated with
the length of the scanned list, which always suffices. -/
def replaceListAux (pat rep : List Char) : Nat → List Char → List Char
  | _, [] => []
  | 0, s => s
  | fuel + 1, c :: rest =>
    if pat.isPrefixOf (c :: rest) ∧ pat ≠ [] then
      rep ++ replaceListAux pat rep fuel (List.drop (pat.length - 1) rest)
    else
      c :: replaceListAux pat rep fuel rest

/-- Embedding of Python `s.replace(pat, rep)` for non-empty `pat`,
used by `qwen_client.py` as `API_BASE_URL.replace("/v1", "")`. -/
def pyReplace (s pat rep : String) : String :=
  String.mk (replaceListAux pat.data rep.data s.data.length s.data)

/-- Embedding of Python `s.startswith(pre)`. -/
def strStartsWith (s pre : String) : Bool :=
  pre.data.isPrefixOf s.data

/-- State of the on-disk credential file, as seen by
`QwenClient._load_oauth_creds`: the file may be missing, present but
rejected by `json.load` / the `OAuthCreds` constructor, or parse to a
credential. -/
inductive CredFile
  | missing
  | unparsable
  | parsed (c : OAuthCreds)
  deriving DecidableEq, Repr

/-- Embedding of `QwenClient._load_oauth_creds` (qwen_client.py lines
63-68).  The code returns `None` when the file does not exist and
otherwise runs `json.load` and `OAuthCreds(**creds_json)` with no
exception handler, so a parse failure propagates (`Except.error`). -/
def load_oauth_creds : CredFile → Except String (Option OAuthCreds)
  | CredFile.missing => Except.ok none
  | CredFile.unparsable => Except.error "json.JSONDecodeError"
  | CredFile.parsed c => Except.ok (some c)

/-- Embedding of `QwenClient._is_token_expired` (qwen_client.py lines
76-79): true when no credential is loaded, otherwise the comparison
`expiry_date < time.time() - 30`, with `now` the current epoch time. -/
def is_token_expired (creds : Option OAuthCreds) (now : Int) : Bool :=
  match creds with
  | none => true
  | some c => decide (c.expiry_date < now - 30)

/-- Embedding of the URL construction at the top of
`QwenClient.make_request` (qwen_client.py lines 202-205): prefix
`https://` unless the stored `resource_url` already starts with
`https://`, then append the chat-completions path. -/
def build_api_url (resource_url : String) : String :=
  let r := if strStartsWith resource_url "https://" then resource_url
           else "https://" ++ resource_url
  r ++ "/v1/chat/completions"

/-- Response of the token endpoint to a refresh-token grant, as consumed
by `QwenClient._refresh_token`: HTTP status plus the JSON fields read on
a 200 (`refresh_token` and `resource_url` may be omitted, in which case
`dict.get` falls back to the previous credential's values). -/
structure RefreshResp where
  status : Int
  access_token : String
  refresh_token : Option String
  token_type : String
  resource_url : Option String
  expires_in : Int
  deriving DecidableEq, Repr

/-- Outcome of `QwenClient._refresh_token`: the two exceptions it can
raise, or success carrying the credential it built and saved. -/
inductive RefreshOutcome
  | noCredentialError
  | refreshFailedError
  | refreshed (c : OAuthCreds)
  deriving DecidableEq, Repr

/-- Embedding of `QwenClient._refresh_token` (qwen_client.py lines
142-174).  Raises when `self._oauth_creds` is `None`; on a non-200
response clears the in-memory credential, unlinks the file and raises;
on 200 builds the new credential (`expiry_date = int(time.time()) +
expires_in`, omitted fields defaulted from the old credential) and
saves it.  The second component is the stored credential state after
the call (`none` when it was deleted or never present). -/
def refresh_token_op (creds : Option OAuthCreds) (now : Int)
    (resp : RefreshResp) : RefreshOutcome × Option OAuthCreds :=
  match creds with
  | none => (RefreshOutcome.noCredentialError, none)
  | some c =>
    if resp.status ≠ 200 then (RefreshOutcome.refreshFailedError, none)
    else
      let newCreds : OAuthCreds :=
        { access_token := resp.access_token
          refresh_token := resp.refresh_token.getD c.refresh_token
          token_type := resp.token_type
          resource_url := resp.resource_url.getD c.resource_url
          expiry_date := now + resp.expires_in }
      (RefreshOutcome.refreshed newCreds, some newCreds)

/-- Response of the token endpoint to one device-flow poll request, as
consumed by `QwenClient._poll_for_token`: a 200 carries the token
fields (`resource_url` optional), a non-200 carries
`data.get("error")`, distinguished here as the two recoverable error
codes versus anything else (which carries `error_description`). -/
inductive TokenResp
  | ok (access_token refresh_token token_type : String)
       (resource_url : Option String) (expires_in : Int)
  | pending
  | slowDown
  | err (desc : Option String)
  deriving DecidableEq, Repr

/-- Result of `QwenClient._poll_for_token`, with the number of token
requests that were issued. -/
inductive PollResult
  | success (creds : OAuthCreds) (requests : Nat)
  | oauthError (desc : Option String) (requests : Nat)
  | timedOut (requests : Nat)
  deriving DecidableEq, Repr

/-- Credential built in the 200 branch of `_poll_for_token`
(qwen_client.py lines 118-128): `expiry_date = int(time.time()) +
data["expires_in"]`, and `resource_url` defaults to
`API_BASE_URL.replace("/v1", "")` when the response omits it. -/
def buildCreds (now : Int) (access refresh ttype : String)
    (resource : Option String) (expires_in : Int) : OAuthCreds :=
  { access_token := access
    refresh_token := refresh
    token_type := ttype
    resource_url := resource.getD (pyReplace API_BASE_URL "/v1" "")
    expiry_date := now + expires_in }

/-- Embedding of the polling loop of `QwenClient._poll_for_token`
(qwen_client.py lines 111-140).  `rs k` is the response to the k-th
token request, `e` is `device_auth.expires_in`, `n0` the epoch time
when the loop started, `el` the elapsed time (sleeps only; requests
are modelled as instantaneous) and `iv` the current poll interval in
seconds.  Each iteration first checks `time.time() - start_time <
expires_in`, then sleeps `iv`, issues the request and dispatches on the
response exactly as the Python `if/elif` chain does.  `fuel` bounds the
recursion; since `iv` never drops below 2 seconds, any fuel of at least
`e.toNat + 1` is sufficient (proved below). -/
def pollLoop (rs : Nat → TokenResp) (e n0 : Int) (fuel i : Nat)
    (el iv : ℚ) : Option PollResult :=
  if (e : ℚ) ≤ el then some (PollResult.timedOut i)
  else
    match fuel with
    | 0 => none
    | fuel' + 1 =>
      let el' := el + iv
      match rs i with
      | TokenResp.ok a r t ru ex =>
        some (PollResult.success
          (buildCreds (n0 + Rat.floor el') a r t ru ex) (i + 1))
      | TokenResp.pending => pollLoop rs e n0 fuel' (i + 1) el' iv
      | TokenResp.slowDown =>
        pollLoop rs e n0 fuel' (i + 1) el' (min (iv * (3 / 2)) 10)
      | TokenResp.err d => some (PollResult.oauthError d (i + 1))

/-- Embedding of `QwenClient._poll_for_token`: run the loop from zero
elapsed time with the initial 2-second interval, giving it enough fuel
to reach the timeout bound. -/
def poll_for_token (rs : Nat → TokenResp) (e n0 : Int) : Option PollResult :=
  pollLoop rs e n0 (e.toNat + 1) 0 0 2

/-- Upstream HTTP response as seen by `QwenClient.make_request`: a
status code and a parsed body. -/
structure Response where
  status : Int
  body : String
  deriving DecidableEq, Repr

/-- Environment of one `make_request` call: the in-memory credential
and current time on entry, the success/failure of each token operation
the call might perform, and the upstream response to each of the up to
three POSTs.  Transport errors of the POSTs themselves are out of
scope; each POST is modelled by the response it returns. -/
structure DispatchEnv where
  creds : Option OAuthCreds
  now : Int
  ensureRefreshOk : Bool
  ensureAuthOk : Bool
  resp1 : Response
  retryRefreshOk : Bool
  retryAuthOk : Bool
  resp2 : Response
  resp3 : Response
  deriving Repr

/-- Operation counts of one `make_request` call: `refreshes` counts
calls of `_refresh_token` (attempted, whether or not they raised),
`reauths` counts calls of `_authenticate`, `resends` counts the POSTs
after the first one. -/
structure Counts where
  refreshes : Nat
  reauths : Nat
  resends : Nat
  deriving DecidableEq, Repr

/-- Pointwise sum of operation counts. -/
def addCounts (a b : Counts) : Counts :=
  ⟨a.refreshes + b.refreshes, a.reauths + b.reauths, a.resends + b.resends⟩

/-- Result of `QwenClient.make_request`: the parsed body on success, a
`requests.HTTPError` from `raise_for_status` (the spec's
`UpstreamHTTPError`) on a final non-success status, or a propagated
`_authenticate` failure. -/
inductive DispatchResult
  | ok (body : String)
  | httpError (status : Int)
  | authFailure
  deriving DecidableEq, Repr

/-- Embedding of `response.raise_for_status()`: raise for any status in
[400, 600), otherwise return the parsed body. -/
def raise_for_status (r : Response) : DispatchResult :=
  if 400 ≤ r.status ∧ r.status < 600 then DispatchResult.httpError r.status
  else DispatchResult.ok r.body

/-- Embedding of `QwenClient._ensure_valid_token` (qwen_client.py lines
176-184): when the token is expired, refresh if a credential with a
truthy (non-empty) `refresh_token` is loaded — falling back to
`_authenticate` if the refresh raises — and otherwise authenticate.
Returns whether control proceeds (false when `_authenticate` raised)
and the operation counts. -/
def ensure_valid_token (creds : Option OAuthCreds) (now : Int)
    (refreshOk authOk : Bool) : Bool × Counts :=
  if is_token_expired creds now then
    match creds with
    | some c =>
      if c.refresh_token ≠ "" then
        if refreshOk then (true, ⟨1, 0, 0⟩)
        else if authOk then (true, ⟨1, 1, 0⟩) else (false, ⟨1, 1, 0⟩)
      else if authOk then (true, ⟨0, 1, 0⟩) else (false, ⟨0, 1, 0⟩)
    | none => if authOk then (true, ⟨0, 1, 0⟩) else (false, ⟨0, 1, 0⟩)
  else (true, ⟨0, 0, 0⟩)

/-- Embedding of the reactive retry block of `QwenClient.make_request`
(qwen_client.py lines 219-231): if the first response's status is in
`[400, 401, 403]`, try `_refresh_token` and resend; if that raised,
`_authenticate` and resend; finally `raise_for_status` on whichever
response is current. -/
def dispatchSend (env : DispatchEnv) : DispatchResult × Counts :=
  if env.resp1.status = 400 ∨ env.resp1.status = 401 ∨ env.resp1.status = 403 then
    if env.retryRefreshOk then (raise_for_status env.resp2, ⟨1, 0, 1⟩)
    else if env.retryAuthOk then (raise_for_status env.resp3, ⟨1, 1, 1⟩)
    else (DispatchResult.authFailure, ⟨1, 1, 0⟩)
  else (raise_for_status env.resp1, ⟨0, 0, 0⟩)

/-- Embedding of `QwenClient.make_request` (qwen_client.py lines
199-239): `_ensure_valid_token`, then the POST with the bounded
reactive retry block, accumulating the operation counts of both
phases. -/
def make_request (env : DispatchEnv) : DispatchResult × Counts :=
  let e := ensure_valid_token env.creds env.now env.ensureRefreshOk env.ensureAuthOk
  if e.1 then
    let d := dispatchSend env
    (d.1, addCounts e.2 d.2)
  else (DispatchResult.authFailure, e.2)

/-- Behaviour of the upstream byte source consumed by
`generate_stream` in `OpenAIAdapter.chat_completion_stream`
(openai_adapter.py): it yields some chunks and then either ends
normally or raises an exception whose message is `msg`. -/
inductive ByteSource
  | ends (chunks : List String)
  | fails (chunks : List String) (msg : String)
  deriving DecidableEq, Repr

/-- Stream event as framed by `generate_stream`: the adapter always
uses choice index 0, `delta = some chunk` with no finish reason for
content events, and an empty delta with finish reason `stop` for the
terminal event (the spec's StreamEvent). -/
structure StreamEvent where
  index : Nat
  delta : Option String
  finish_reason : Option String
  deriving DecidableEq, Repr

/-- Content event of `generate_stream`: `delta={"content": chunk}`,
`finish_reason=None`. -/
def deltaEvent (chunk : String) : StreamEvent := ⟨0, some chunk, none⟩

/-- Terminal event of `generate_stream`: `delta={}`,
`finish_reason="stop"`. -/
def stopEvent : StreamEvent := ⟨0, none, some "stop"⟩

/-- SSE framing used by every `yield` of `generate_stream`:
`data: <payload>` followed by a blank line. -/
def sseFrame (payload : String) : String := "data: " ++ payload ++ "\n\n"

/-- End-of-sequence sentinel frame `data: [DONE]` plus blank line. -/
def doneFrame : String := sseFrame "[DONE]"

/-- Payload of the inline error frame exactly as the code computes it:
`f"data: {error_response}\n\n"` interpolates the Python dict
`{"error": {"message": str(e), "type": "internal_error"}}` via `str`,
which renders with single quotes (Python `repr`), not as JSON.
Modelled for messages without quote or escape characters. -/
def pyErrorPayload (msg : String) : String :=
  "\x7b\x27error\x27: \x7b\x27message\x27: \x27" ++ msg ++
    "\x27, \x27type\x27: \x27internal_error\x27\x7d\x7d"

/-- Modelled from the spec: the JSON encoding (`json.dumps` with default
separators) of `\x7b"error": \x7b"message": <msg>, "type":
"internal_error"\x7d\x7d` that the spec's outbound SSE wire format
prescribes for the mid-stream error event, for messages without quote
or escape characters.  Stated only to be compared with
`pyErrorPayload`, which is what the code emits. -/
def jsonErrorPayload (msg : String) : String :=
  "\x7b\"error\": \x7b\"message\": \"" ++ msg ++
    "\", \"type\": \"internal_error\"\x7d\x7d"

/-- Frames produced by `generate_stream` when the byte source ends
normally after `chunks`: one content frame per chunk, then the terminal
stop frame, then the sentinel.  `enc` abstracts
`ChatCompletionStreamResponse.model_dump_json` (the pydantic models
module is not part of the sources), applied to the event the adapter
constructs. -/
def streamFramesOk (enc : StreamEvent → String) : List String → List String
  | [] => [sseFrame (enc stopEvent), doneFrame]
  | c :: cs => sseFrame (enc (deltaEvent c)) :: streamFramesOk enc cs

/-- Frames produced by `generate_stream` when the byte source raises
with message `msg` after yielding `chunks`: the content frames already
emitted, then the inline error frame, then the sentinel — the
exception is caught inside the generator and never propagates. -/
def streamFramesErr (enc : StreamEvent → String) (msg : String) :
    List String → List String
  | [] => [sseFrame (pyErrorPayload msg), doneFrame]
  | c :: cs => sseFrame (enc (deltaEvent c)) :: streamFramesErr enc msg cs

/-- Embedding of the `generate_stream` generator of
`OpenAIAdapter.chat_completion_stream` (openai_adapter.py lines
105-161), as the full list of SSE frames it yields for a given byte
source behaviour. -/
def generate_stream (enc : StreamEvent → String) : ByteSource → List String
  | ByteSource.ends cs => streamFramesOk enc cs
  | ByteSource.fails cs msg => streamFramesErr enc msg cs

/-- Concrete credential used to instantiate theorems below. -/
def credA : OAuthCreds :=
  { access_token := "at0"
    refresh_token := "rt0"
    token_type := "Bearer"
    resource_url := "example.com"
    expiry_date := 2000 }

/-- Concrete credential whose `refresh_token` is the empty (falsy)
string, used to instantiate theorems below. -/
def credNoRT : OAuthCreds :=
  { access_token := "at0"
    refresh_token := ""
    token_type := "Bearer"
    resource_url := "example.com"
    expiry_date := 2000 }

/-- Concrete credential with `expiry_date = 100`, used to instantiate
theorems below. -/
def cred100 : OAuthCreds :=
  { access_token := "a"
    refresh_token := "r"
    token_type := "Bearer"
    resource_url := "example.com"
    expiry_date := 100 }

/-- Concrete 200 refresh response, used to instantiate theorems. -/
def refreshRespOk : RefreshResp :=
  { status := 200
    access_token := "at1"
    refresh_token := some "rt1"
    token_type := "Bearer"
    resource_url := some "new.example.com"
    expires_in := 3600 }

/-- Concrete token-endpoint behaviour for the `authorization_pending`,
`authorization_pending`, success scenario. -/
def rsPendingTwice : Nat → TokenResp := fun i =>
  if i < 2 then TokenResp.pending
  else TokenResp.ok "at" "rt" "tt" (some "ru") 3600

/-- Concrete dispatch environment for the 401 / refresh / 200 retry
scenario: an unexpired credential, a 401 first response, a successful
reactive refresh and a 200 resend. -/
def env401 : DispatchEnv :=
  { creds := some credA
    now := 1000
    ensureRefreshOk := true
    ensureAuthOk := true
    resp1 := ⟨401, "err-body"⟩
    retryRefreshOk := true
    retryAuthOk := true
    resp2 := ⟨200, "body2"⟩
    resp3 := ⟨200, "body3"⟩ }

/-! Helper lemmas (shared). -/

/-- Closed form of `streamFramesOk`: content frames in order, then the
stop frame and the sentinel. -/
theorem streamFramesOk_eq (enc : StreamEvent → String) (cs : List String) :
    streamFramesOk enc cs =
      cs.map (fun c => sseFrame (enc (deltaEvent c)))
        ++ [sseFrame (enc stopEvent), doneFrame] := by
  induction cs with
  | nil => rfl
  | cons c cs ih => simp [streamFramesOk, ih]

/-- Closed form of `streamFramesErr`: content frames in order, then the
inline error frame and the sentinel. -/
theorem streamFramesErr_eq (enc : StreamEvent → String) (msg : String)
    (cs : List String) :
    streamFramesErr enc msg cs =
      cs.map (fun c => sseFrame (enc (deltaEvent c)))
        ++ [sseFrame (pyErrorPayload msg), doneFrame] := by
  induction cs with
  | nil => rfl
  | cons c cs ih => simp [streamFramesErr, ih]

/-- Fuel sufficiency for `pollLoop`: the interval never drops below 2
seconds, so the loop settles within `(e - el) / 2` iterations. -/
theorem pollLoop_isSome (rs : Nat → TokenResp) (e n0 : Int) :
    ∀ (fuel i : Nat) (el iv : ℚ), 2 ≤ iv → (e : ℚ) - el ≤ 2 * fuel →
      (pollLoop rs e n0 fuel i el iv).isSome := by
  intro fuel
  induction fuel with
  | zero =>
    intro i el iv _ hf
    rw [pollLoop.eq_def, if_pos (by push_cast at hf ⊢; linarith)]
    rfl
  | succ f ih =>
    intro i el iv h2 hf
    rw [pollLoop.eq_def]
    by_cases hle : (e : ℚ) ≤ el
    · rw [if_pos hle]; rfl
    · rw [if_neg hle]
      cases hrs : rs i with
      | ok a r t ru ex => simp [hrs]
      | err d => simp [hrs]
      | pending =>
        simp only [hrs]
        exact ih (i + 1) (el + iv) iv h2 (by push_cast at hf ⊢; linarith)
      | slowDown =>
        simp only [hrs]
        refine ih (i + 1) (el + iv) (min (iv * (3 / 2)) 10) ?_ ?_
        · exact le_min (by linarith) (by norm_num)
        · push_cast at hf ⊢; linarith

/-- Totality of `poll_for_token`: the fuel `e.toNat + 1` always
suffices, so the fueled loop never returns `none`. -/
theorem poll_for_token_total (rs : Nat → TokenResp) (e n0 : Int) :
    poll_for_token rs e n0 ≠ none := by
  have h := pollLoop_isSome rs e n0 (e.toNat + 1) 0 0 2 le_rfl ?_
  · exact Option.isSome_iff_ne_none.mp h
  · have h1 : e ≤ (e.toNat : Int) := Int.self_le_toNat e
    have h2 : (0 : ℚ) ≤ (e.toNat : ℚ) := by positivity
    push_cast
    push_cast at h1
    have h3 : (e : ℚ) ≤ (e.toNat : ℚ) := by exact_mod_cast h1
    linarith

/-! Claim theorems. -/

/-- C1: in `QwenClient.make_request`, a first-response status in
\x7b400, 401, 403\x7d triggers at most one refresh-then-resend, a
re-authentication-then-resend happens only when the refresh raised, a
401 / successful-refresh / 200 sequence on an unexpired credential
returns the second response's parsed body with exactly one refresh, one
resend and no re-authentication, any remaining non-success status after
the final attempt raises (`raise_for_status`), and the retry counts
never exceed this budget for any response sequence. -/
theorem C1_bounded_retry :
    (∀ env : DispatchEnv, is_token_expired env.creds env.now = false →
        env.resp1.status = 401 → env.retryRefreshOk = true → env.resp2.status = 200 →
        make_request env = (DispatchResult.ok env.resp2.body, ⟨1, 0, 1⟩))
    ∧ (∀ env : DispatchEnv, (dispatchSend env).2.refreshes ≤ 1 ∧
        (dispatchSend env).2.reauths ≤ 1 ∧ (dispatchSend env).2.resends ≤ 1)
    ∧ (∀ env : DispatchEnv, 1 ≤ (dispatchSend env).2.reauths → env.retryRefreshOk = false)
    ∧ (∀ env : DispatchEnv,
        ¬(env.resp1.status = 400 ∨ env.resp1.status = 401 ∨ env.resp1.status = 403) →
        dispatchSend env = (raise_for_status env.resp1, ⟨0, 0, 0⟩))
    ∧ (∀ env : DispatchEnv,
        (env.resp1.status = 400 ∨ env.resp1.status = 401 ∨ env.resp1.status = 403) →
        env.retryRefreshOk = true → 400 ≤ env.resp2.status → env.resp2.status < 600 →
        dispatchSend env = (DispatchResult.httpError env.resp2.status, ⟨1, 0, 1⟩))
    ∧ (∀ env : DispatchEnv,
        (env.resp1.status = 400 ∨ env.resp1.status = 401 ∨ env.resp1.status = 403) →
        env.retryRefreshOk = false → env.retryAuthOk = true →
        400 ≤ env.resp3.status → env.resp3.status < 600 →
        dispatchSend env = (DispatchResult.httpError env.resp3.status, ⟨1, 1, 1⟩)) := by
  refine ⟨?_, ?_, ?_, ?_, ?_, ?_⟩
  · intro env h0 h1 hr h2
    simp only [make_request, ensure_valid_token, h0, Bool.false_eq_true, if_false]
    simp only [dispatchSend, h1, hr, raise_for_status, h2, addCounts]
    norm_num
  · intro env
    by_cases h : env.resp1.status = 400 ∨ env.resp1.status = 401 ∨ env.resp1.status = 403 <;>
      by_cases hr : env.retryRefreshOk <;>
      by_cases ha : env.retryAuthOk <;>
      simp [dispatchSend, h, hr, ha]
  · intro env h
    by_contra hr
    rw [Bool.not_eq_false] at hr
    by_cases hc : env.resp1.status = 400 ∨ env.resp1.status = 401 ∨ env.resp1.status = 403 <;>
      simp [dispatchSend, hc, hr] at h
  · intro env h
    simp [dispatchSend, h]
  · intro env h hr h4 h6
    simp only [dispatchSend, h, if_true, hr, if_pos, raise_for_status]
    simp [h4, h6]
  · intro env h hr ha h4 h6
    simp only [dispatchSend, h, if_true, hr, ha, raise_for_status]
    simp [h4, h6]

/-- Witness for C1 at the concrete environment `env401`. -/
theorem C1_bounded_retry_witness :
    is_token_expired env401.creds env401.now = false
    ∧ make_request env401 = (DispatchResult.ok "body2", ⟨1, 0, 1⟩) :=
  ⟨by decide, C1_bounded_retry.1 env401 (by decide) rfl rfl rfl⟩

/-- C2 (code bug): when the byte source raises mid-stream,
`generate_stream` emits exactly one inline error frame followed by the
sentinel and propagates no exception, but the error frame's payload is
the Python `str` of the error dict (single-quoted `repr`), not the JSON
encoding the claim and the spec's wire format prescribe. -/
theorem C2_stream_error_frames :
    (∀ (enc : StreamEvent → String) (cs : List String) (msg : String),
        generate_stream enc (ByteSource.fails cs msg) =
          cs.map (fun c => sseFrame (enc (deltaEvent c)))
            ++ [sseFrame (pyErrorPayload msg), doneFrame])
    ∧ pyErrorPayload "boom" =
        "\x7b\x27error\x27: \x7b\x27message\x27: \x27boom\x27, \x27type\x27: \x27internal_error\x27\x7d\x7d"
    ∧ jsonErrorPayload "boom" =
        "\x7b\"error\": \x7b\"message\": \"boom\", \"type\": \"internal_error\"\x7d\x7d"
    ∧ pyErrorPayload "boom" ≠ jsonErrorPayload "boom" :=
  ⟨fun enc cs msg => streamFramesErr_eq enc msg cs, rfl, rfl, by decide⟩

/-- C3 counterexample: a credential file that exists but fails to parse
makes `_load_oauth_creds` raise (there is no exception handler around
`json.load`), rather than return absent as the claim states. -/
theorem C3_load_counterexample :
    load_oauth_creds CredFile.unparsable = Except.error "json.JSONDecodeError"
    ∧ load_oauth_creds CredFile.unparsable ≠ Except.ok none := by
  refine ⟨rfl, ?_⟩
  simp [load_oauth_creds]

/-- C3 (amended): `_load_oauth_creds` returns absent exactly when no
credential file exists; a parse failure propagates past this boundary
as an exception. -/
theorem C3_load_amended :
    (load_oauth_creds CredFile.missing = Except.ok none)
    ∧ (∀ c : OAuthCreds, load_oauth_creds (CredFile.parsed c) = Except.ok (some c))
    ∧ (∃ m : String, load_oauth_creds CredFile.unparsable = Except.error m) :=
  ⟨rfl, fun _ => rfl, ⟨"json.JSONDecodeError", rfl⟩⟩

/-- C4 counterexample: with `expiry_date = 100` and `now = 100` the
stored expiry is at (not after) the current time, yet
`_is_token_expired` returns false, contradicting the claim that it
returns true when `expiry_date` is at or before `now`. -/
theorem C4_expiry_counterexample :
    cred100.expiry_date ≤ 100 ∧ is_token_expired (some cred100) 100 = false := by
  decide

/-- C4 (amended): `_is_token_expired` returns true exactly when the
credential is absent or `expiry_date < now - 30`; the credential is
thus treated as live until 30 seconds **after** the stored expiry, not
proactively expired 30 seconds before it. -/
theorem C4_expiry_amended :
    (∀ (c : OAuthCreds) (now : Int),
        is_token_expired (some c) now = true ↔ c.expiry_date < now - 30)
    ∧ (∀ now : Int, is_token_expired none now = true) := by
  refine ⟨fun c now => ?_, fun _ => rfl⟩
  simp [is_token_expired]

/-- C5: `_poll_for_token` always terminates with a result; it starts at
elapsed 0 with a 2-second interval; it times out exactly when the
elapsed time reaches `expires_in`; on `authorization_pending` it
continues at the same interval, on `slow_down` it continues at
`min(interval * 1.5, 10)`, on any other error it fails immediately with
the provider's description, and on HTTP 200 it returns the credential
built with `expiry_date = int(now) + expires_in`; in particular
`authorization_pending` twice followed by success makes exactly three
requests and returns the third response's credential. -/
theorem C5_token_poller :
    (∀ (rs : Nat → TokenResp) (e n0 : Int), poll_for_token rs e n0 ≠ none)
    ∧ (∀ (rs : Nat → TokenResp) (e n0 : Int),
        poll_for_token rs e n0 = pollLoop rs e n0 (e.toNat + 1) 0 0 2)
    ∧ (∀ (rs : Nat → TokenResp) (e n0 : Int) (fuel i : Nat) (el iv : ℚ),
        (e : ℚ) ≤ el →
        pollLoop rs e n0 fuel i el iv = some (PollResult.timedOut i))
    ∧ (∀ (rs : Nat → TokenResp) (e n0 : Int) (fuel i : Nat) (el iv : ℚ),
        el < (e : ℚ) → rs i = TokenResp.pending →
        pollLoop rs e n0 (fuel + 1) i el iv = pollLoop rs e n0 fuel (i + 1) (el + iv) iv)
    ∧ (∀ (rs : Nat → TokenResp) (e n0 : Int) (fuel i : Nat) (el iv : ℚ),
        el < (e : ℚ) → rs i = TokenResp.slowDown →
        pollLoop rs e n0 (fuel + 1) i el iv =
          pollLoop rs e n0 fuel (i + 1) (el + iv) (min (iv * (3 / 2)) 10))
    ∧ (∀ (rs : Nat → TokenResp) (e n0 : Int) (fuel i : Nat) (el iv : ℚ)
        (d : Option String), el < (e : ℚ) → rs i = TokenResp.err d →
        pollLoop rs e n0 (fuel + 1) i el iv = some (PollResult.oauthError d (i + 1)))
    ∧ (∀ (rs : Nat → TokenResp) (e n0 : Int) (fuel i : Nat) (el iv : ℚ)
        (a r t : String) (ru : Option String) (ex : Int),
        el < (e : ℚ) → rs i = TokenResp.ok a r t ru ex →
        pollLoop rs e n0 (fuel + 1) i el iv =
          some (PollResult.success
            (buildCreds (n0 + Rat.floor (el + iv)) a r t ru ex) (i + 1)))
    ∧ poll_for_token rsPendingTwice 300 1000 =
        some (PollResult.success ⟨"at", "rt", "tt", "ru", 4606⟩ 3) := by
  refine ⟨poll_for_token_total, fun _ _ _ => rfl, ?_, ?_, ?_, ?_, ?_, ?_⟩
  · intro rs e n0 fuel i el iv h
    rw [pollLoop.eq_def, if_pos h]
  · intro rs e n0 fuel i el iv h hrs
    conv_lhs => rw [pollLoop.eq_def]
    rw [if_neg (not_le.mpr h)]
    simp only [hrs]
  · intro rs e n0 fuel i el iv h hrs
    conv_lhs => rw [pollLoop.eq_def]
    rw [if_neg (not_le.mpr h)]
    simp only [hrs]
  · intro rs e n0 fuel i el iv d h hrs
    conv_lhs => rw [pollLoop.eq_def]
    rw [if_neg (not_le.mpr h)]
    simp only [hrs]
  · intro rs e n0 fuel i el iv a r t ru ex h hrs
    conv_lhs => rw [pollLoop.eq_def]
    rw [if_neg (not_le.mpr h)]
    simp only [hrs]
  · simp only [poll_for_token]
    norm_num [pollLoop, rsPendingTwice, buildCreds]
    decide

/-- Witness for C5: a pending step, a timeout and totality, each at
concrete inputs. -/
theorem C5_token_poller_witness :
    pollLoop rsPendingTwice 300 1000 (3 + 1) 0 0 2 =
      pollLoop rsPendingTwice 300 1000 3 (0 + 1) (0 + 2) 2
    ∧ pollLoop rsPendingTwice 300 1000 7 0 300 2 = some (PollResult.timedOut 0)
    ∧ poll_for_token rsPendingTwice 300 1000 ≠ none :=
  ⟨C5_token_poller.2.2.2.1 rsPendingTwice 300 1000 3 0 0 2 (by decide) rfl,
   C5_token_poller.2.2.1 rsPendingTwice 300 1000 7 0 300 2 (by decide),
   C5_token_poller.1 rsPendingTwice 300 1000⟩

/-- C6 counterexample: a loaded credential whose `refresh_token` is the
empty (falsy) string does not make `_refresh_token` raise
`NoCredentialError` — the guard only checks `self._oauth_creds`, so the
refresh request is sent and here succeeds. -/
theorem C6_refresh_counterexample :
    credNoRT.refresh_token = ""
    ∧ (refresh_token_op (some credNoRT) 1000 refreshRespOk).1 ≠
        RefreshOutcome.noCredentialError := by
  decide

/-- C6 (amended): `_refresh_token` fails with `NoCredentialError`
exactly when no credential is loaded at all — a loaded credential with
an empty `refresh_token` still proceeds to the refresh request — and on
a non-200 response it deletes the persisted credential and fails with
`RefreshFailedError`. -/
theorem C6_refresh_amended :
    (∀ (now : Int) (resp : RefreshResp),
        refresh_token_op none now resp = (RefreshOutcome.noCredentialError, none))
    ∧ (∀ (c : OAuthCreds) (now : Int) (resp : RefreshResp), resp.status ≠ 200 →
        refresh_token_op (some c) now resp = (RefreshOutcome.refreshFailedError, none))
    ∧ (∀ (c : OAuthCreds) (now : Int) (resp : RefreshResp), resp.status = 200 →
        (refresh_token_op (some c) now resp).1 ≠ RefreshOutcome.noCredentialError) := by
  refine ⟨fun _ _ => rfl, ?_, ?_⟩
  · intro c now resp h
    simp [refresh_token_op, h]
  · intro c now resp h
    simp [refresh_token_op, h]

/-- Witness for C6 at concrete inputs: a 500 response deletes the
credential and fails, and a 200 response on an empty `refresh_token`
does not raise `NoCredentialError`. -/
theorem C6_refresh_amended_witness :
    refresh_token_op (some credNoRT) 1000 ⟨500, "x", none, "Bearer", none, 0⟩ =
      (RefreshOutcome.refreshFailedError, none)
    ∧ (refresh_token_op (some credNoRT) 1000 refreshRespOk).1 ≠
        RefreshOutcome.noCredentialError :=
  ⟨C6_refresh_amended.2.1 credNoRT 1000 ⟨500, "x", none, "Bearer", none, 0⟩ (by decide),
   C6_refresh_amended.2.2 credNoRT 1000 refreshRespOk (by decide)⟩

/-- C7: for a byte source that ends normally, `generate_stream` yields
one content frame per chunk in source order (delta = chunk text, no
finish reason), then exactly one terminal frame with empty delta and
finish reason `stop`, then the sentinel `data: [DONE]`, every
non-sentinel event framed as `data: <json>` plus blank line; in
particular `["Hello", " world"]` yields those four frames in order. -/
theorem C7_stream_normal :
    (∀ (enc : StreamEvent → String) (chunks : List String),
        generate_stream enc (ByteSource.ends chunks) =
          chunks.map (fun c => sseFrame (enc (deltaEvent c)))
            ++ [sseFrame (enc stopEvent), doneFrame])
    ∧ (∀ enc : StreamEvent → String,
        generate_stream enc (ByteSource.ends ["Hello", " world"]) =
          [sseFrame (enc (deltaEvent "Hello")), sseFrame (enc (deltaEvent " world")),
           sseFrame (enc stopEvent), doneFrame]) :=
  ⟨fun enc chunks => streamFramesOk_eq enc chunks, fun _ => rfl⟩

/-- C8 counterexample: the stored value `http://example.com` carries a
scheme, yet `make_request` still prefixes `https://`, producing a
malformed URL instead of leaving the value unchanged as the claim
states. -/
theorem C8_url_counterexample :
    build_api_url "http://example.com" = "https://http://example.com/v1/chat/completions"
    ∧ build_api_url "http://example.com" ≠ "http://example.com/v1/chat/completions" := by
  decide

/-- C8 (amended): `make_request` prefixes `https://` exactly when the
stored `resource_url` does not start with the literal `https://`
(regardless of any other scheme it may carry), and leaves it unchanged
when it does. -/
theorem C8_url_amended :
    ∀ u : String,
      (strStartsWith u "https://" = true → build_api_url u = u ++ "/v1/chat/completions")
      ∧ (strStartsWith u "https://" = false →
          build_api_url u = "https://" ++ u ++ "/v1/chat/completions") := by
  intro u
  constructor <;> intro h <;> simp [build_api_url, h]

/-- Witness for C8 at concrete inputs with and without the `https://`
prefix. -/
theorem C8_url_amended_witness :
    build_api_url "https://h.example.com" = "https://h.example.com" ++ "/v1/chat/completions"
    ∧ build_api_url "h.example.com" = "https://" ++ "h.example.com" ++ "/v1/chat/completions" :=
  ⟨(C8_url_amended "https://h.example.com").1 (by decide),
   (C8_url_amended "h.example.com").2 (by decide)⟩

/-- C10: when the device-flow token exchange succeeds but the response
omits `resource_url`, the credential built and returned by
`_poll_for_token` carries the default
`https://dashscope.aliyuncs.com/compatible-mode`, which is exactly
`API_BASE_URL.replace("/v1", "")`. -/
theorem C10_default_resource_url :
    pyReplace API_BASE_URL "/v1" "" = "https://dashscope.aliyuncs.com/compatible-mode"
    ∧ (∀ (now : Int) (a r t : String) (ex : Int),
        (buildCreds now a r t none ex).resource_url =
          "https://dashscope.aliyuncs.com/compatible-mode")
    ∧ poll_for_token (fun _ => TokenResp.ok "a" "r" "t" none 60) 300 1000 =
        some (PollResult.success
          ⟨"a", "r", "t", "https://dashscope.aliyuncs.com/compatible-mode", 1062⟩ 1) := by
  refine ⟨by decide, ?_, ?_⟩
  · intro now a r t ex
    simp only [buildCreds, Option.getD]
    decide
  · simp only [poll_for_token]
    norm_num [pollLoop, buildCreds]
    decide

end QwenProxy
